import Mathlib

/-!
Verification of the commercial-vehicle offer configurator backend
(`src/main.py`, `src/schemas.py`): catalog data, the pricing function
`calculate_total`, the offer-submission endpoint `create_offer`, and the
request-validation layer induced by the pydantic schemas.

Prices in the source are integer literals and sums of integers (the final
`float(...)` conversion is exact on them), so they are embedded as `Nat`.
-/

namespace Configurator

/-- A vehicle catalog entry (`VEHICLES` rows in `src/main.py`). -/
structure Vehicle where
  id : String
  name : String
  base_price : Nat
deriving DecidableEq

/-- A generic catalog entry with `code`, `name`, `price`
(rows of `COLORS`, `UPHOLSTERIES`, `FACTORY_OPTIONS`, `ACCESSORIES`). -/
structure CatalogItem where
  code : String
  name : String
  price : Nat
deriving DecidableEq

/-- The `VEHICLES` list of `src/main.py`. -/
def VEHICLES : List Vehicle :=
  [ { id := "van-s", name := "City Van S", base_price := 18990 },
    { id := "van-m", name := "Transit M", base_price := 23990 },
    { id := "truck-l", name := "Cargo Truck L", base_price := 44990 } ]

/-- The `COLORS` list of `src/main.py`. -/
def COLORS : List CatalogItem :=
  [ { code := "WHI", name := "Arctic White", price := 0 },
    { code := "BLK", name := "Midnight Black", price := 450 },
    { code := "SLV", name := "Glacier Silver", price := 450 },
    { code := "RED", name := "Signal Red", price := 690 } ]

/-- The `UPHOLSTERIES` list of `src/main.py`. -/
def UPHOLSTERIES : List CatalogItem :=
  [ { code := "FAB-G", name := "Fabric Grey", price := 0 },
    { code := "FAB-B", name := "Fabric Black", price := 120 },
    { code := "LEA-B", name := "Leather Black", price := 890 } ]

/-- The `FACTORY_OPTIONS` list of `src/main.py`. -/
def FACTORY_OPTIONS : List CatalogItem :=
  [ { code := "PKG-COMF", name := "Comfort Package", price := 990 },
    { code := "NAV-PRO", name := "Navigation Pro", price := 1290 },
    { code := "ACC-ADAPT", name := "Adaptive Cruise Control", price := 790 },
    { code := "CAM-360", name := "360° Camera", price := 650 } ]

/-- The `ACCESSORIES` list of `src/main.py`. -/
def ACCESSORIES : List CatalogItem :=
  [ { code := "MAT-RUB", name := "Rubber Floor Mats", price := 99 },
    { code := "RACK-ROOF", name := "Roof Rack", price := 299 },
    { code := "BOX-TOOL", name := "Tool Storage Box", price := 179 } ]

/-- The `Customer` pydantic model of `src/schemas.py`.
Optional fields are `Option`; required fields are plain. -/
structure Customer where
  first_name : String
  last_name : String
  company : Option String
  email : String
  phone : Option String
  street : Option String
  postal_code : Option String
  city : Option String
  notes : Option String
deriving DecidableEq

/-- The `Configuration` pydantic model of `src/schemas.py`.
`total_price` is `Optional[float]` in the source; all totals the program
computes are integral, so it is embedded as `Option Nat`. -/
structure Configuration where
  vehicle_id : String
  vehicle_name : String
  color_code : String
  color_name : String
  upholstery_code : String
  upholstery_name : String
  factory_options : List String
  accessories : List String
  special_agreement : Option String
  customer : Customer
  total_price : Option Nat
deriving DecidableEq

/-- The function `calculate_total` of `src/main.py`: vehicle base price, color price and
upholstery price looked up by code with default 0, plus the prices of the
catalog factory options and accessories whose code occurs in the submitted
lists. -/
def calculate_total (cfg : Configuration) : Nat :=
  let base_price := ((VEHICLES.find? (fun v => v.id == cfg.vehicle_id)).map
    (fun v => v.base_price)).getD 0
  let color_price := ((COLORS.find? (fun c => c.code == cfg.color_code)).map
    (fun c => c.price)).getD 0
  let up_price := ((UPHOLSTERIES.find? (fun u => u.code == cfg.upholstery_code)).map
    (fun u => u.price)).getD 0
  let opt_sum := ((FACTORY_OPTIONS.filter
    (fun o => cfg.factory_options.contains o.code)).map (fun o => o.price)).sum
  let acc_sum := ((ACCESSORIES.filter
    (fun a => cfg.accessories.contains a.code)).map (fun a => a.price)).sum
  base_price + color_price + up_price + opt_sum + acc_sum

/-- Outcome of a `POST /api/offers` call: an `HTTPException` with a status
and detail, or the `OfferResponse` body. -/
inductive OfferResult where
  | clientError (status : Nat) (detail : String)
  | serverError (status : Nat) (detail : String)
  | accepted (offer_id : String) (total_price : Nat)
deriving DecidableEq

/-- Modelled from the spec: the Persistence Gateway (`create_document` of
`database.py`, which is not under `src/`) — `insert(record) -> id`, possibly
failing with a storage error message (spec §4.4, §6). -/
def Gateway : Type := Configuration → Except String String

/-- Observable trace of one `create_offer` call: the response, the documents
handed to `create_document`, and the number of `calculate_total` runs. -/
structure StepTrace where
  result : OfferResult
  writes : List Configuration
  pricingRuns : Nat
deriving DecidableEq

/-- The handler `create_offer` of `src/main.py`: look up vehicle/color/upholstery by the
submitted codes; if any is missing raise HTTP 400 "Invalid catalog selection";
otherwise overwrite the three name fields from the catalog, compute and
overwrite the total, and hand the document to the gateway, turning a storage
error `e` into HTTP 500 "Database error: e". -/
def create_offer (gw : Gateway) (cfg : Configuration) : StepTrace :=
  match VEHICLES.find? (fun v => v.id == cfg.vehicle_id),
        COLORS.find? (fun c => c.code == cfg.color_code),
        UPHOLSTERIES.find? (fun u => u.code == cfg.upholstery_code) with
  | some vehicle, some color, some upholstery =>
    let cfg1 := { cfg with
      vehicle_name := vehicle.name,
      color_name := color.name,
      upholstery_name := upholstery.name }
    let total := calculate_total cfg1
    let data := { cfg1 with total_price := some total }
    match gw data with
    | Except.error e =>
      { result := OfferResult.serverError 500 ("Database error: " ++ e),
        writes := [data], pricingRuns := 1 }
    | Except.ok offer_id =>
      { result := OfferResult.accepted offer_id total,
        writes := [data], pricingRuns := 1 }
  | _, _, _ =>
    { result := OfferResult.clientError 400 "Invalid catalog selection",
      writes := [], pricingRuns := 0 }

/-- Modelled from the spec: pydantic's `EmailStr` check (the library itself is
not under `src/`; `src/schemas.py` only declares `email: EmailStr`). The spec
says the email "must be a syntactically valid email address": a single `@`
separating a nonempty local part from a nonempty domain. -/
def isValidEmail (s : String) : Bool :=
  s.data.count '@' == 1
    && s.data.head? != some '@' && s.data.getLast? != some '@'

/-- A raw `customer` object of the request body, before pydantic validation:
every field may be absent. -/
structure RawCustomer where
  first_name : Option String
  last_name : Option String
  company : Option String
  email : Option String
  phone : Option String
  street : Option String
  postal_code : Option String
  city : Option String
  notes : Option String
deriving DecidableEq

/-- A raw `configuration` object of the request body, before pydantic
validation: every field may be absent. -/
structure RawConfiguration where
  vehicle_id : Option String
  vehicle_name : Option String
  color_code : Option String
  color_name : Option String
  upholstery_code : Option String
  upholstery_name : Option String
  factory_options : Option (List String)
  accessories : Option (List String)
  special_agreement : Option String
  customer : Option RawCustomer
  total_price : Option Nat
deriving DecidableEq

/-- Pydantic validation of `Customer` (`src/schemas.py`): `first_name`,
`last_name` and a valid `email` are required, the rest default to `None`. -/
def parseCustomer (raw : RawCustomer) : Option Customer :=
  match raw.first_name, raw.last_name, raw.email with
  | some fn, some ln, some em =>
    if isValidEmail em then
      some { first_name := fn, last_name := ln, company := raw.company,
             email := em, phone := raw.phone, street := raw.street,
             postal_code := raw.postal_code, city := raw.city,
             notes := raw.notes }
    else none
  | _, _, _ => none

/-- Pydantic validation of `Configuration` (`src/schemas.py`): the six
id/code/name string fields and `customer` are required; `factory_options`
and `accessories` default to `[]`; `special_agreement` and `total_price`
are optional. -/
def parseConfiguration (raw : RawConfiguration) : Option Configuration :=
  match raw.vehicle_id, raw.vehicle_name, raw.color_code, raw.color_name,
        raw.upholstery_code, raw.upholstery_name, raw.customer with
  | some vid, some vn, some cc, some cn, some uc, some un, some rc =>
    match parseCustomer rc with
    | some cust =>
      some { vehicle_id := vid, vehicle_name := vn, color_code := cc,
             color_name := cn, upholstery_code := uc, upholstery_name := un,
             factory_options := raw.factory_options.getD [],
             accessories := raw.accessories.getD [],
             special_agreement := raw.special_agreement,
             customer := cust, total_price := raw.total_price }
    | none => none
  | _, _, _, _, _, _, _ => none

/-- The `POST /api/offers` surface including the framework's request
validation: an unparseable body is rejected before `create_offer` runs. -/
def handle_offers (gw : Gateway) (raw : RawConfiguration) : StepTrace :=
  match parseConfiguration raw with
  | some cfg => create_offer gw cfg
  | none =>
    { result := OfferResult.clientError 422 "request validation failed",
      writes := [], pricingRuns := 0 }

/-! ### Helper lemmas -/

theorem sum_map_filter (l : List CatalogItem) (p : CatalogItem → Bool) :
    ((l.filter p).map (fun o => o.price)).sum
      = (l.map (fun o => if p o then o.price else 0)).sum := by
  induction l with
  | nil => rfl
  | cons a t ih => cases hp : p a <;> simp [List.filter_cons, hp, ih]

theorem filter_contains_congr (l : List CatalogItem) (xs ys : List String)
    (h : ∀ s, xs.contains s = ys.contains s) :
    l.filter (fun o => xs.contains o.code) = l.filter (fun o => ys.contains o.code) :=
  List.filter_congr (fun o _ => h o.code)

/-- The price only depends on the code fields and the two code lists, the
latter only through membership of catalog codes: the name fields and
`total_price` are irrelevant. -/
theorem calculate_total_congr (c₁ c₂ : Configuration)
    (hv : c₁.vehicle_id = c₂.vehicle_id)
    (hc : c₁.color_code = c₂.color_code)
    (hu : c₁.upholstery_code = c₂.upholstery_code)
    (hf : ∀ o ∈ FACTORY_OPTIONS,
      c₁.factory_options.contains o.code = c₂.factory_options.contains o.code)
    (ha : ∀ a ∈ ACCESSORIES,
      c₁.accessories.contains a.code = c₂.accessories.contains a.code) :
    calculate_total c₁ = calculate_total c₂ := by
  simp only [calculate_total, hv, hc, hu,
    List.filter_congr hf, List.filter_congr ha]

/-! ### Sample data for concrete runs -/

/-- A concrete customer used in concrete submissions. -/
def sample_customer : Customer :=
  { first_name := "Ada", last_name := "Lovelace", company := none,
    email := "ada@example.com", phone := none, street := none,
    postal_code := none, city := none, notes := none }

/-- The configuration of spec §8's worked example. -/
def example_config : Configuration :=
  { vehicle_id := "van-s", vehicle_name := "", color_code := "BLK",
    color_name := "", upholstery_code := "FAB-G", upholstery_name := "",
    factory_options := ["NAV-PRO", "UNKNOWN-X"], accessories := [],
    special_agreement := none, customer := sample_customer,
    total_price := none }

/-- A gateway whose insert always succeeds with identifier "offer-1". -/
def okGateway : Gateway := fun _ => Except.ok "offer-1"

/-- A gateway whose insert always fails with a storage error. -/
def failGateway : Gateway := fun _ => Except.error "storage unreachable"

/-- Whether a result is an HTTP 400-class error (the only one the endpoint
produces is `InvalidSelection`). -/
def isClientError : OfferResult → Bool
  | OfferResult.clientError _ _ => true
  | _ => false

/-- The total price as the specification words it (§8 Additivity, §4.3):
base price of the selected vehicle, plus the color's and upholstery's
prices, plus the price of every catalog factory option and accessory whose
code appears in the submitted lists; any code unmatched in its catalog list
contributes 0. -/
def spec_total (cfg : Configuration) : Nat :=
  ((VEHICLES.find? (fun v => v.id == cfg.vehicle_id)).map
    (fun v => v.base_price)).getD 0
  + ((COLORS.find? (fun c => c.code == cfg.color_code)).map
    (fun c => c.price)).getD 0
  + ((UPHOLSTERIES.find? (fun u => u.code == cfg.upholstery_code)).map
    (fun u => u.price)).getD 0
  + (FACTORY_OPTIONS.map
    (fun o => if cfg.factory_options.contains o.code then o.price else 0)).sum
  + (ACCESSORIES.map
    (fun a => if cfg.accessories.contains a.code then a.price else 0)).sum

/-! ### Path lemmas for `create_offer` -/

theorem create_offer_of_invalid (gw : Gateway) (cfg : Configuration)
    (h : VEHICLES.find? (fun v => v.id == cfg.vehicle_id) = none
       ∨ COLORS.find? (fun c => c.code == cfg.color_code) = none
       ∨ UPHOLSTERIES.find? (fun u => u.code == cfg.upholstery_code) = none) :
    create_offer gw cfg
      = { result := OfferResult.clientError 400 "Invalid catalog selection",
          writes := [], pricingRuns := 0 } := by
  unfold create_offer
  cases hv : VEHICLES.find? (fun v => v.id == cfg.vehicle_id) <;>
    cases hc : COLORS.find? (fun c => c.code == cfg.color_code) <;>
      cases hu : UPHOLSTERIES.find? (fun u => u.code == cfg.upholstery_code) <;>
        simp_all

/-- The fully resolved document `create_offer` hands to the gateway once
validation has matched `v`, `c`, `u`: the client configuration with the
three names overwritten from the catalog and `total_price` overwritten with
the computed total. -/
def resolved_document (cfg : Configuration) (v : Vehicle)
    (c u : CatalogItem) : Configuration :=
  { cfg with vehicle_name := v.name, color_name := c.name,
             upholstery_name := u.name,
             total_price := some (calculate_total
               { cfg with vehicle_name := v.name, color_name := c.name,
                          upholstery_name := u.name }) }

theorem create_offer_of_valid (gw : Gateway) (cfg : Configuration)
    (v : Vehicle) (c u : CatalogItem)
    (hv : VEHICLES.find? (fun w => w.id == cfg.vehicle_id) = some v)
    (hc : COLORS.find? (fun w => w.code == cfg.color_code) = some c)
    (hu : UPHOLSTERIES.find? (fun w => w.code == cfg.upholstery_code) = some u) :
    create_offer gw cfg
      = match gw (resolved_document cfg v c u) with
        | Except.error e =>
          { result := OfferResult.serverError 500 ("Database error: " ++ e),
            writes := [resolved_document cfg v c u], pricingRuns := 1 }
        | Except.ok offer_id =>
          { result := OfferResult.accepted offer_id (calculate_total
              { cfg with vehicle_name := v.name, color_name := c.name,
                         upholstery_name := u.name }),
            writes := [resolved_document cfg v c u], pricingRuns := 1 } := by
  unfold create_offer
  rw [hv, hc, hu]
  rfl

theorem create_offer_of_valid_ok (gw : Gateway) (cfg : Configuration)
    (v : Vehicle) (c u : CatalogItem) (oid : String)
    (hv : VEHICLES.find? (fun w => w.id == cfg.vehicle_id) = some v)
    (hc : COLORS.find? (fun w => w.code == cfg.color_code) = some c)
    (hu : UPHOLSTERIES.find? (fun w => w.code == cfg.upholstery_code) = some u)
    (hgw : gw (resolved_document cfg v c u) = Except.ok oid) :
    create_offer gw cfg
      = { result := OfferResult.accepted oid (calculate_total
            { cfg with vehicle_name := v.name, color_name := c.name,
                       upholstery_name := u.name }),
          writes := [resolved_document cfg v c u], pricingRuns := 1 } := by
  rw [create_offer_of_valid gw cfg v c u hv hc hu, hgw]

theorem create_offer_of_valid_error (gw : Gateway) (cfg : Configuration)
    (v : Vehicle) (c u : CatalogItem) (e : String)
    (hv : VEHICLES.find? (fun w => w.id == cfg.vehicle_id) = some v)
    (hc : COLORS.find? (fun w => w.code == cfg.color_code) = some c)
    (hu : UPHOLSTERIES.find? (fun w => w.code == cfg.upholstery_code) = some u)
    (hgw : gw (resolved_document cfg v c u) = Except.error e) :
    create_offer gw cfg
      = { result := OfferResult.serverError 500 ("Database error: " ++ e),
          writes := [resolved_document cfg v c u], pricingRuns := 1 } := by
  rw [create_offer_of_valid gw cfg v c u hv hc hu, hgw]

/-! ### Claim theorems -/

/-- C1: for every configuration, the computed total price equals the
vehicle's base_price plus the color's price plus the upholstery's price plus
the sum of prices of catalog factory options whose code appears in
`factory_options` plus the sum of prices of catalog accessories whose code
appears in `accessories`, any code unmatched in its catalog list
contributing 0. -/
theorem calculate_total_is_additive (cfg : Configuration) :
    calculate_total cfg = spec_total cfg := by
  simp only [calculate_total, spec_total, sum_map_filter]

/-- C5: submitting the spec §8 example configuration (vehicle "van-s",
color "BLK", upholstery "FAB-G", factory options ["NAV-PRO", "UNKNOWN-X"],
no accessories) against the program's catalog yields total_price 20730,
both from the pricing function and through the submission endpoint. -/
theorem example_config_totals_20730 :
    calculate_total example_config = 20730 ∧
    (create_offer okGateway example_config).result
      = OfferResult.accepted "offer-1" 20730 :=
  ⟨by decide, by decide⟩

/-- C7: duplicate codes in `factory_options` or `accessories` have no
price effect: the total equals the total of the same configuration with
duplicates removed, since pricing sums catalog entries by membership. -/
theorem calculate_total_dedup (cfg : Configuration) :
    calculate_total { cfg with factory_options := cfg.factory_options.dedup,
                               accessories := cfg.accessories.dedup }
      = calculate_total cfg :=
  calculate_total_congr _ _ rfl rfl rfl
    (fun o _ => by simp [List.contains, List.mem_dedup])
    (fun a _ => by simp [List.contains, List.mem_dedup])

/-- C8: the pricing function is deterministic (two calls on the same
configuration agree) and invariant under any permutation of the
`factory_options` and `accessories` lists. -/
theorem calculate_total_deterministic_perm_invariant (cfg : Configuration)
    (fo acc : List String)
    (hf : fo.Perm cfg.factory_options) (ha : acc.Perm cfg.accessories) :
    calculate_total cfg = calculate_total cfg ∧
    calculate_total { cfg with factory_options := fo, accessories := acc }
      = calculate_total cfg :=
  ⟨rfl, calculate_total_congr _ _ rfl rfl rfl
    (fun o _ => by simp [List.contains, hf.mem_iff])
    (fun a _ => by simp [List.contains, ha.mem_iff])⟩

/-- Witness for C8 at a concrete permuted pair of add-on lists. -/
theorem calculate_total_perm_witness :
    calculate_total { example_config with
        factory_options := ["CAM-360", "NAV-PRO"],
        accessories := ["BOX-TOOL", "MAT-RUB"] }
      = calculate_total { example_config with
        factory_options := ["NAV-PRO", "CAM-360"],
        accessories := ["MAT-RUB", "BOX-TOOL"] } :=
  (calculate_total_deterministic_perm_invariant
    { example_config with factory_options := ["NAV-PRO", "CAM-360"],
                          accessories := ["MAT-RUB", "BOX-TOOL"] }
    ["CAM-360", "NAV-PRO"] ["BOX-TOOL", "MAT-RUB"]
    (by decide) (by decide)).2

/-- C2: whenever the submitted vehicle_id, color_code or upholstery_code
matches no catalog code, `create_offer` answers HTTP 400
"Invalid catalog selection", hands nothing to the persistence gateway and
never runs the pricing function. -/
theorem invalid_selection_rejected (gw : Gateway) (cfg : Configuration)
    (h : VEHICLES.find? (fun v => v.id == cfg.vehicle_id) = none
       ∨ COLORS.find? (fun c => c.code == cfg.color_code) = none
       ∨ UPHOLSTERIES.find? (fun u => u.code == cfg.upholstery_code) = none) :
    create_offer gw cfg
      = { result := OfferResult.clientError 400 "Invalid catalog selection",
          writes := [], pricingRuns := 0 } :=
  create_offer_of_invalid gw cfg h

/-- The spec §8 scenario for strict validation: vehicle_id "nonexistent". -/
def invalid_config : Configuration :=
  { example_config with vehicle_id := "nonexistent" }

/-- Witness for C2: a submission with vehicle_id "nonexistent" is rejected
with no write and no pricing. -/
theorem invalid_selection_witness :
    create_offer okGateway invalid_config
      = { result := OfferResult.clientError 400 "Invalid catalog selection",
          writes := [], pricingRuns := 0 } :=
  invalid_selection_rejected okGateway invalid_config (Or.inl (by decide))

/-- C3: with valid vehicle/color/upholstery codes, adding a factory-options
entry (or an accessories entry) unknown to its catalog list never yields the
InvalidSelection client error, and the unknown entry adds 0 to the total. -/
theorem unknown_addon_tolerated (gw : Gateway) (cfg : Configuration)
    (x y : String) (v : Vehicle) (c u : CatalogItem)
    (hv : VEHICLES.find? (fun w => w.id == cfg.vehicle_id) = some v)
    (hc : COLORS.find? (fun w => w.code == cfg.color_code) = some c)
    (hu : UPHOLSTERIES.find? (fun w => w.code == cfg.upholstery_code) = some u)
    (hx : ∀ o ∈ FACTORY_OPTIONS, o.code ≠ x)
    (hy : ∀ a ∈ ACCESSORIES, a.code ≠ y) :
    isClientError (create_offer gw
        { cfg with factory_options := x :: cfg.factory_options }).result = false
    ∧ calculate_total { cfg with factory_options := x :: cfg.factory_options }
        = calculate_total cfg
    ∧ isClientError (create_offer gw
        { cfg with accessories := y :: cfg.accessories }).result = false
    ∧ calculate_total { cfg with accessories := y :: cfg.accessories }
        = calculate_total cfg := by
  refine ⟨?_, ?_, ?_, ?_⟩
  · rw [create_offer_of_valid gw
      { cfg with factory_options := x :: cfg.factory_options } v c u hv hc hu]
    cases gw (resolved_document
      { cfg with factory_options := x :: cfg.factory_options } v c u) <;> rfl
  · exact calculate_total_congr _ _ rfl rfl rfl
      (fun o ho => by
        show (x :: cfg.factory_options).contains o.code
          = cfg.factory_options.contains o.code
        simp only [List.contains_cons, beq_eq_false_iff_ne.mpr (hx o ho),
          Bool.false_or])
      (fun a _ => rfl)
  · rw [create_offer_of_valid gw
      { cfg with accessories := y :: cfg.accessories } v c u hv hc hu]
    cases gw (resolved_document
      { cfg with accessories := y :: cfg.accessories } v c u) <;> rfl
  · exact calculate_total_congr _ _ rfl rfl rfl
      (fun o _ => rfl)
      (fun a ha => by
        show (y :: cfg.accessories).contains a.code
          = cfg.accessories.contains a.code
        simp only [List.contains_cons, beq_eq_false_iff_ne.mpr (hy a ha),
          Bool.false_or])

/-- A valid base configuration used by the C3 witness. -/
def addon_base_config : Configuration :=
  { example_config with factory_options := ["NAV-PRO"] }

/-- Witness for C3 at the codes "UNKNOWN-X" and "UNKNOWN-Y". -/
theorem unknown_addon_witness :
    isClientError (create_offer okGateway { addon_base_config with
        factory_options := "UNKNOWN-X" :: addon_base_config.factory_options }).result
      = false
    ∧ calculate_total { addon_base_config with
        factory_options := "UNKNOWN-X" :: addon_base_config.factory_options }
      = calculate_total addon_base_config
    ∧ isClientError (create_offer okGateway { addon_base_config with
        accessories := "UNKNOWN-Y" :: addon_base_config.accessories }).result
      = false
    ∧ calculate_total { addon_base_config with
        accessories := "UNKNOWN-Y" :: addon_base_config.accessories }
      = calculate_total addon_base_config :=
  unknown_addon_tolerated okGateway addon_base_config "UNKNOWN-X" "UNKNOWN-Y"
    { id := "van-s", name := "City Van S", base_price := 18990 }
    { code := "BLK", name := "Midnight Black", price := 450 }
    { code := "FAB-G", name := "Fabric Grey", price := 0 }
    (by decide) (by decide) (by decide) (by decide) (by decide)

/-- C4: the client-supplied vehicle_name, color_name, upholstery_name and
total_price have no influence on the outcome of a submission, and every
document handed to persistence carries the names looked up in the catalog
for the submitted codes. -/
theorem client_fields_ignored (gw : Gateway) (cfg : Configuration)
    (n₁ n₂ n₃ : String) (tp : Option Nat) :
    create_offer gw { cfg with vehicle_name := n₁, color_name := n₂,
                               upholstery_name := n₃, total_price := tp }
      = create_offer gw cfg
    ∧ ∀ v c u,
        VEHICLES.find? (fun w => w.id == cfg.vehicle_id) = some v →
        COLORS.find? (fun w => w.code == cfg.color_code) = some c →
        UPHOLSTERIES.find? (fun w => w.code == cfg.upholstery_code) = some u →
        ∀ r ∈ (create_offer gw cfg).writes,
          r.vehicle_name = v.name ∧ r.color_name = c.name
            ∧ r.upholstery_name = u.name := by
  constructor
  · rfl
  · intro v c u hv hc hu r hr
    cases hgw : gw (resolved_document cfg v c u) with
    | error e =>
      rw [create_offer_of_valid_error gw cfg v c u e hv hc hu hgw] at hr
      simp only [List.mem_singleton] at hr
      subst hr
      exact ⟨rfl, rfl, rfl⟩
    | ok oid =>
      rw [create_offer_of_valid_ok gw cfg v c u oid hv hc hu hgw] at hr
      simp only [List.mem_singleton] at hr
      subst hr
      exact ⟨rfl, rfl, rfl⟩

/-- Witness for C4: forging vehicle_name "FAKE" and total_price 999999
changes nothing about the submission's outcome. -/
theorem client_fields_ignored_witness :
    create_offer okGateway
      { example_config with
        vehicle_name := "FAKE", color_name := "FAKE2",
        upholstery_name := "FAKE3", total_price := some 999999 }
      = create_offer okGateway example_config :=
  (client_fields_ignored okGateway example_config
    "FAKE" "FAKE2" "FAKE3" (some 999999)).1

/-- C6: when validation passes but the gateway insert fails with message e,
the endpoint answers the server fault HTTP 500 "Database error: e" — a
result distinct from the InvalidSelection client error and carrying no
offer identifier. -/
theorem persistence_failure_is_server_fault (gw : Gateway)
    (cfg : Configuration) (v : Vehicle) (c u : CatalogItem) (e : String)
    (hv : VEHICLES.find? (fun w => w.id == cfg.vehicle_id) = some v)
    (hc : COLORS.find? (fun w => w.code == cfg.color_code) = some c)
    (hu : UPHOLSTERIES.find? (fun w => w.code == cfg.upholstery_code) = some u)
    (hgw : ∀ d, gw d = Except.error e) :
    (create_offer gw cfg).result
      = OfferResult.serverError 500 ("Database error: " ++ e)
    ∧ (create_offer gw cfg).result
      ≠ OfferResult.clientError 400 "Invalid catalog selection"
    ∧ ∀ oid tp, (create_offer gw cfg).result ≠ OfferResult.accepted oid tp := by
  rw [create_offer_of_valid_error gw cfg v c u e hv hc hu (hgw _)]
  exact ⟨rfl, by simp, fun oid tp => by simp⟩

/-- Witness for C6 with an always-failing gateway on the example
configuration. -/
theorem persistence_failure_witness :
    (create_offer failGateway example_config).result
      = OfferResult.serverError 500 "Database error: storage unreachable"
    ∧ (create_offer failGateway example_config).result
      ≠ OfferResult.clientError 400 "Invalid catalog selection"
    ∧ ∀ oid tp, (create_offer failGateway example_config).result
      ≠ OfferResult.accepted oid tp :=
  persistence_failure_is_server_fault failGateway example_config
    { id := "van-s", name := "City Van S", base_price := 18990 }
    { code := "BLK", name := "Midnight Black", price := 450 }
    { code := "FAB-G", name := "Fabric Grey", price := 0 }
    "storage unreachable"
    (by decide) (by decide) (by decide) (fun _ => rfl)

/-- C9: on an accepted submission the single persisted document is the
submitted configuration itself with only vehicle_name, color_name,
upholstery_name and total_price replaced — factory_options, accessories,
special_agreement, customer and the code fields are stored verbatim. -/
theorem persisted_record_verbatim (gw : Gateway) (cfg : Configuration)
    (v : Vehicle) (c u : CatalogItem) (oid : String) (tp : Nat)
    (hv : VEHICLES.find? (fun w => w.id == cfg.vehicle_id) = some v)
    (hc : COLORS.find? (fun w => w.code == cfg.color_code) = some c)
    (hu : UPHOLSTERIES.find? (fun w => w.code == cfg.upholstery_code) = some u)
    (h : (create_offer gw cfg).result = OfferResult.accepted oid tp) :
    (create_offer gw cfg).writes
      = [{ cfg with
           vehicle_name := v.name, color_name := c.name,
           upholstery_name := u.name, total_price := some tp }] := by
  cases hgw : gw (resolved_document cfg v c u) with
  | error e =>
    rw [create_offer_of_valid_error gw cfg v c u e hv hc hu hgw] at h
    simp at h
  | ok oid2 =>
    rw [create_offer_of_valid_ok gw cfg v c u oid2 hv hc hu hgw] at h ⊢
    simp only [OfferResult.accepted.injEq] at h
    simp [resolved_document, h.2]

/-- Witness for C9 on the example configuration: exactly one document is
stored, equal to the submission with names and total overwritten. -/
theorem persisted_record_witness :
    (create_offer okGateway example_config).writes
      = [{ example_config with
           vehicle_name := "City Van S", color_name := "Midnight Black",
           upholstery_name := "Fabric Grey", total_price := some 20730 }] :=
  persisted_record_verbatim okGateway example_config
    { id := "van-s", name := "City Van S", base_price := 18990 }
    { code := "BLK", name := "Midnight Black", price := 450 }
    { code := "FAB-G", name := "Fabric Grey", price := 0 }
    "offer-1" 20730
    (by decide) (by decide) (by decide) (by decide)

/-- C10: the request schema makes vehicle_name, color_name and
upholstery_name mandatory, and requires a customer with first_name,
last_name and a valid email: a body missing any of them is rejected by
request validation, with no pricing and no persistence, before the offer
pipeline runs. -/
theorem required_name_fields_enforced (gw : Gateway) (raw : RawConfiguration)
    (h : raw.vehicle_name = none ∨ raw.color_name = none
       ∨ raw.upholstery_name = none ∨ raw.customer = none
       ∨ ∃ rc, raw.customer = some rc ∧
           (rc.first_name = none ∨ rc.last_name = none ∨ rc.email = none
            ∨ ∃ e, rc.email = some e ∧ isValidEmail e = false)) :
    handle_offers gw raw
      = { result := OfferResult.clientError 422 "request validation failed",
          writes := [], pricingRuns := 0 } := by
  have hp : parseConfiguration raw = none := by
    obtain ⟨vid, vn, cc, cn, uc, un, fo, acc, sa, rc, tp⟩ := raw
    rcases h with h | h | h | h | ⟨rc', hrc, h⟩
    · dsimp only at h
      subst h
      cases vid <;> cases cc <;> cases cn <;> cases uc <;> cases un <;>
        cases rc <;> rfl
    · dsimp only at h
      subst h
      cases vid <;> cases vn <;> cases cc <;> cases uc <;> cases un <;>
        cases rc <;> rfl
    · dsimp only at h
      subst h
      cases vid <;> cases vn <;> cases cc <;> cases cn <;> cases uc <;>
        cases rc <;> rfl
    · dsimp only at h
      subst h
      cases vid <;> cases vn <;> cases cc <;> cases cn <;> cases uc <;>
        cases un <;> rfl
    · dsimp only at hrc
      subst hrc
      obtain ⟨fn, ln, co, em, ph, st, pc, ci, no⟩ := rc'
      rcases h with h | h | h | ⟨e, he, hval⟩
      · dsimp only at h
        subst h
        cases vid <;> cases vn <;> cases cc <;> cases cn <;> cases uc <;>
          cases un <;> simp [parseConfiguration, parseCustomer]
      · dsimp only at h
        subst h
        cases vid <;> cases vn <;> cases cc <;> cases cn <;> cases uc <;>
          cases un <;> cases fn <;> simp [parseConfiguration, parseCustomer]
      · dsimp only at h
        subst h
        cases vid <;> cases vn <;> cases cc <;> cases cn <;> cases uc <;>
          cases un <;> cases fn <;> cases ln <;>
            simp [parseConfiguration, parseCustomer]
      · dsimp only at he
        subst he
        cases vid <;> cases vn <;> cases cc <;> cases cn <;> cases uc <;>
          cases un <;> cases fn <;> cases ln <;>
            simp [parseConfiguration, parseCustomer, hval]
  simp [handle_offers, hp]

/-- A complete raw body, as a sanity check that the validation model does
accept well-formed submissions. -/
def complete_raw : RawConfiguration :=
  { vehicle_id := some "van-s", vehicle_name := some "City Van S",
    color_code := some "BLK", color_name := some "Midnight Black",
    upholstery_code := some "FAB-G", upholstery_name := some "Fabric Grey",
    factory_options := some ["NAV-PRO"], accessories := some [],
    special_agreement := none,
    customer := some
      { first_name := some "Ada", last_name := some "Lovelace",
        company := none, email := some "ada@example.com", phone := none,
        street := none, postal_code := none, city := none, notes := none },
    total_price := none }

theorem parse_complete_raw_succeeds :
    (parseConfiguration complete_raw).isSome = true := rfl

/-- A raw body whose three server-derived name fields are all absent. -/
def missing_names_raw : RawConfiguration :=
  { vehicle_id := some "van-s", vehicle_name := none,
    color_code := some "BLK", color_name := none,
    upholstery_code := some "FAB-G", upholstery_name := none,
    factory_options := some ["NAV-PRO"], accessories := some [],
    special_agreement := none,
    customer := some
      { first_name := some "Ada", last_name := some "Lovelace",
        company := none, email := some "ada@example.com", phone := none,
        street := none, postal_code := none, city := none, notes := none },
    total_price := none }

/-- Witness for C10: the body with the name fields omitted is rejected by
request validation with no write and no pricing. -/
theorem required_name_fields_witness :
    handle_offers okGateway missing_names_raw
      = { result := OfferResult.clientError 422 "request validation failed",
          writes := [], pricingRuns := 0 } :=
  required_name_fields_enforced okGateway missing_names_raw (Or.inl rfl)

end Configurator
